import Mathlib

/-!
Verification development for the colab-connect repository
(src/colabconnect/colabconnect.py).

Every definition below is a shallow embedding of a function of that file,
translated clause by clause from the Python source.  External effects
(DNS resolution, subprocess execution, the file system, sockets) are
modelled as explicit oracle parameters: a definition receives the outcome
an external call would produce and computes exactly what the Python code
computes from that outcome.  Machine strings are Lean `String`; byte
buffers are `List Nat`.
-/

/- ### Shared string helpers -/

/-- Membership of `pat` as a contiguous substring of a character list.
Used to state where a credential occurs inside a command line or a log
line (Python `in` on `str`). -/
def subIn (pat : List Char) : List Char → Bool
  | [] => pat.isEmpty
  | c :: t => pat.isPrefixOf (c :: t) || subIn pat t

theorem subIn_of_parts (pat a b : List Char) : subIn pat (a ++ (pat ++ b)) = true := by
  induction a with
  | nil =>
      simp only [List.nil_append]
      cases h : pat ++ b with
      | nil =>
          have hp : pat = [] := by
            cases pat with
            | nil => rfl
            | cons x xs => simp at h
          rw [hp]
          rfl
      | cons c t =>
          have hpre : pat <+: c :: t := h ▸ List.prefix_append pat b
          simp [subIn, hpre]
  | cons x xs ih =>
      simp only [List.cons_append]
      simp [subIn]
      exact Or.inr ih

theorem subIn_append_left (pat s t : List Char) (h : subIn pat t = true) :
    subIn pat (s ++ t) = true := by
  induction s with
  | nil => simpa using h
  | cons c cs ih =>
      simp only [List.cons_append, subIn, Bool.or_eq_true]
      exact Or.inr ih

theorem subIn_head (pat b : List Char) : subIn pat (pat ++ b) = true := by
  simpa using subIn_of_parts pat [] b

theorem subIn_self (pat : List Char) : subIn pat pat = true := by
  simpa using subIn_of_parts pat [] []

theorem strData_append (a b : String) : (a ++ b).data = a.data ++ b.data := by
  cases a; cases b; rfl

/- ### colabconnect.py lines 79-85: strip_protocol -/

/-- Source translation of `strip_protocol` (colabconnect.py lines 79-85):
strips a single leading `http://` or `https://` from the URL, by the
same two `startswith` checks and slice offsets as the Python code. -/
def strip_protocol (url : String) : String :=
  if "http://".data.isPrefixOf url.data then String.mk (url.data.drop 7)
  else if "https://".data.isPrefixOf url.data then String.mk (url.data.drop 8)
  else url

/-- Whether a string begins with a protocol marker, the property the spec
phrase "contains a protocol prefix" denotes for a normalized host. -/
def hasProtocol (s : String) : Bool :=
  "http://".data.isPrefixOf s.data || "https://".data.isPrefixOf s.data

theorem hasProtocol_strip_http (rest : String) :
    strip_protocol ("http://" ++ rest) = rest := by
  have hd : ("http://" ++ rest).data = "http://".data ++ rest.data := strData_append _ _
  have hpre : "http://".data.isPrefixOf ("http://" ++ rest).data = true := by
    rw [hd]; simp
  have hdrop : (("http://" ++ rest).data).drop 7 = rest.data := by
    rw [hd]
    exact List.drop_left "http://".data rest.data
  rw [strip_protocol, if_pos hpre, hdrop]

theorem hasProtocol_strip_https (rest : String) :
    strip_protocol ("https://" ++ rest) = rest := by
  have hd : ("https://" ++ rest).data = "https://".data ++ rest.data := strData_append _ _
  have hno : "http://".data.isPrefixOf ("https://" ++ rest).data = false := by
    rw [hd]
    simp [List.isPrefixOf]
  have hpre : "https://".data.isPrefixOf ("https://" ++ rest).data = true := by
    rw [hd]; simp
  have hdrop : (("https://" ++ rest).data).drop 8 = rest.data := by
    rw [hd]
    exact List.drop_left "https://".data rest.data
  rw [strip_protocol, if_neg (by simp [hno]), if_pos hpre, hdrop]

/-- C5, as stated by the spec, fails on the code: an endpoint string whose
protocol marker is doubled, such as `http://http://a`, is stripped only
once by `strip_protocol`, so the normalized host still begins with
`http://`.  This closed theorem refutes the universally quantified
claim at that concrete input. -/
theorem claim_C5_cx :
    ¬ (∀ url : String, hasProtocol url = true →
        hasProtocol (strip_protocol url) = false) := by
  intro h
  have h1 : hasProtocol "http://http://a" = true := by decide
  have h2 : hasProtocol (strip_protocol "http://http://a") = true := by decide
  exact absurd (h2.symm.trans (h "http://http://a" h1)) (by decide)

/-- C5 amended: `strip_protocol` removes exactly one leading protocol
marker; for every endpoint `http://rest` or `https://rest` the
normalized host equals `rest`, and it carries no protocol marker
whenever `rest` does not itself begin with one (the doubled-marker
inputs exhibited by the counterexample are the only exception). -/
theorem claim_C5 (rest : String) :
    strip_protocol ("http://" ++ rest) = rest ∧
    strip_protocol ("https://" ++ rest) = rest ∧
    (hasProtocol rest = false →
      hasProtocol (strip_protocol ("http://" ++ rest)) = false ∧
      hasProtocol (strip_protocol ("https://" ++ rest)) = false) := by
  refine ⟨hasProtocol_strip_http rest, hasProtocol_strip_https rest, ?_⟩
  intro hrest
  rw [hasProtocol_strip_http, hasProtocol_strip_https]
  exact ⟨hrest, hrest⟩

/-- Witness for C5 at the concrete endpoint `http://example.com`. -/
theorem claim_C5_witness :
    strip_protocol ("http://" ++ "example.com") = "example.com" ∧
    hasProtocol (strip_protocol ("http://" ++ "example.com")) = false :=
  ⟨(claim_C5 "example.com").1, ((claim_C5 "example.com").2.2 (by decide)).1⟩

/- ### colabconnect.py lines 88-100: resolve_hostname -/

/-- Source translation of `resolve_hostname` (lines 88-100).  The DNS
lookup `socket.gethostbyname` is an external effect and is passed in as
the oracle `resolver`; `none` models the `socket.gaierror` branch, which
the Python code turns into a `None` return. The function strips a
protocol marker before resolving, exactly as the source does. -/
def resolve_hostname (resolver : String → Option String) (hostname : String) :
    Option String :=
  resolver (strip_protocol hostname)

/-- Python `all(c.isdigit() or c == '.' for c in s)` from line 333:
whether a host string is a dotted-numeric address. -/
def isDottedNumeric (s : String) : Bool :=
  s.data.all (fun c => c.isDigit || c == '.')

/-- Diagnostic tags attached to warnings the code prints.  The
resolution-failure warning of lines 338-339 is the `dns_failure` tag of
the spec. -/
inductive Diag
  | dns_failure
deriving DecidableEq

/-- Result of `create_proxychains_config` (lines 310-359): the address and
port written into the `[ProxyList]` entry, the DNS directive line, the
rendered config document, and the warnings printed while building. -/
structure PCConfig where
  proxy_ip : String
  proxy_port : Nat
  dns_setting : String
  content : String
  warnings : List Diag
deriving DecidableEq

/-- Source translation of `create_proxychains_config` (lines 310-359):
strips the protocol marker, keeps a dotted-numeric host as is, otherwise
resolves it through `resolve_hostname`; on resolution failure it keeps
the hostname and records the warning of lines 338-339.  The config
document is rendered exactly as the f-string of lines 344-353. -/
def create_proxychains_config (resolver : String → Option String)
    (proxy_url : String) (proxy_port : Nat) (enable_proxy_dns : Bool) : PCConfig :=
  let clean_proxy_url := strip_protocol proxy_url
  let r :=
    if isDottedNumeric clean_proxy_url then (clean_proxy_url, ([] : List Diag))
    else
      match resolve_hostname resolver clean_proxy_url with
      | some resolved_ip => (resolved_ip, [])
      | none => (clean_proxy_url, [Diag.dns_failure])
  let dns_setting := if enable_proxy_dns then "proxy_dns_old" else "# proxy_dns disabled"
  { proxy_ip := r.1
    proxy_port := proxy_port
    dns_setting := dns_setting
    content :=
      "# proxychains.conf for VSCode tunnel\ndynamic_chain\n" ++ dns_setting ++
      "\ntcp_read_time_out 15000\ntcp_connect_time_out 8000\n\n[ProxyList]\n# Corporate HTTP proxy\nhttp " ++
      r.1 ++ " " ++ toString proxy_port ++ " " ++ "connect\n"
    warnings := r.2 }

/-- C4 confirmed: for a proxy host that is not dotted-numeric, building the
ChainedProxy configuration consults the resolver; when resolution
succeeds the address field of the config is the resolved IP (and is
dotted-numeric whenever the resolver only returns dotted-numeric
addresses, as `socket.gethostbyname` does); when resolution fails the
address field is the normalized hostname itself and the dns-failure
warning is recorded. -/
theorem claim_C4 (resolver : String → Option String) (proxy_url : String)
    (proxy_port : Nat) (enable_proxy_dns : Bool)
    (hnotnum : isDottedNumeric (strip_protocol proxy_url) = false) :
    (∀ ip, resolver (strip_protocol (strip_protocol proxy_url)) = some ip →
      (create_proxychains_config resolver proxy_url proxy_port enable_proxy_dns).proxy_ip = ip ∧
      ((∀ a, resolver (strip_protocol (strip_protocol proxy_url)) = some a →
          isDottedNumeric a = true) →
        isDottedNumeric
          (create_proxychains_config resolver proxy_url proxy_port enable_proxy_dns).proxy_ip =
          true)) ∧
    (resolver (strip_protocol (strip_protocol proxy_url)) = none →
      (create_proxychains_config resolver proxy_url proxy_port enable_proxy_dns).proxy_ip =
        strip_protocol proxy_url ∧
      Diag.dns_failure ∈
        (create_proxychains_config resolver proxy_url proxy_port enable_proxy_dns).warnings) := by
  constructor
  · intro ip hip
    have h1 :
        (create_proxychains_config resolver proxy_url proxy_port enable_proxy_dns).proxy_ip = ip := by
      simp [create_proxychains_config, resolve_hostname, hnotnum, hip]
    refine ⟨h1, ?_⟩
    intro hdot
    rw [h1]
    exact hdot ip hip
  · intro hnone
    simp [create_proxychains_config, resolve_hostname, hnotnum, hnone]

/-- Witness for C4: concrete resolver returning `1.2.3.4` for the default
proxy host, and a concrete resolver that always fails. -/
theorem claim_C4_witness :
    (create_proxychains_config (fun _ => some "1.2.3.4") "proxy.company.com" 8080 true).proxy_ip =
      "1.2.3.4" ∧
    (create_proxychains_config (fun _ => none) "proxy.company.com" 8080 true).proxy_ip =
      "proxy.company.com" ∧
    Diag.dns_failure ∈
      (create_proxychains_config (fun _ => none) "proxy.company.com" 8080 true).warnings := by
  refine ⟨?_, ?_, ?_⟩
  · exact ((claim_C4 (fun _ => some "1.2.3.4") "proxy.company.com" 8080 true (by decide)).1
      "1.2.3.4" rfl).1
  · exact ((claim_C4 (fun _ => none) "proxy.company.com" 8080 true (by decide)).2 rfl).1
  · exact ((claim_C4 (fun _ => none) "proxy.company.com" 8080 true (by decide)).2 rfl).2

/- ### colabconnect.py lines 1332-1368: resolve_github_domains -/

/-- The fixed domain list of lines 1342-1347. -/
def github_domains : List String :=
  ["github.com", "api.github.com", "codeload.github.com", "raw.githubusercontent.com"]

/-- Source translation of `resolve_github_domains` (lines 1332-1368): each
domain is resolved through `resolve_hostname`; a domain is inserted into
the result mapping only when resolution returned an address, preserving
the iteration order of the list. -/
def resolve_github_domains (resolver : String → Option String) : List (String × String) :=
  github_domains.filterMap
    (fun domain => (resolve_hostname resolver domain).map (fun ip => (domain, ip)))

/-- C10 confirmed: every entry of the result maps a domain of the fixed
four-element list to the address the resolver produced for it (so no
entry carries a missing address), and a domain whose resolution failed
has no entry at all. -/
theorem claim_C10 (resolver : String → Option String) :
    (∀ p ∈ resolve_github_domains resolver,
      p.1 ∈ github_domains ∧ resolve_hostname resolver p.1 = some p.2) ∧
    (∀ d ∈ github_domains, resolve_hostname resolver d = none →
      ∀ ip, (d, ip) ∉ resolve_github_domains resolver) := by
  constructor
  · intro p hp
    rw [resolve_github_domains, List.mem_filterMap] at hp
    obtain ⟨d, hd, hmap⟩ := hp
    cases hr : resolve_hostname resolver d with
    | none => rw [hr] at hmap; simp at hmap
    | some ip =>
        rw [hr] at hmap
        simp at hmap
        subst hmap
        exact ⟨hd, hr⟩
  · intro d _ hnone ip hmem
    rw [resolve_github_domains, List.mem_filterMap] at hmem
    obtain ⟨d2, _, hmap⟩ := hmem
    cases hr : resolve_hostname resolver d2 with
    | none => rw [hr] at hmap; simp at hmap
    | some ip2 =>
        rw [hr] at hmap
        simp at hmap
        obtain ⟨h1, _⟩ := hmap
        subst h1
        rw [hnone] at hr
        exact Option.noConfusion hr

/-- Witness for C10 with a resolver that fails on `api.github.com` and
resolves everything else to `140.82.121.3`. -/
theorem claim_C10_witness :
    ∀ ip, ("api.github.com", ip) ∉
      resolve_github_domains
        (fun d => if d == "api.github.com" then none else some "140.82.121.3") :=
  (claim_C10 (fun d => if d == "api.github.com" then none else some "140.82.121.3")).2
    "api.github.com" (by decide) (by decide)

/- ### colabconnect.py lines 1065-1238: colabconnect, environment effect -/

/-- The ambient process environment `os.environ`, as an association list
whose most recent binding of a key shadows older ones. -/
def EnvMap := List (String × String)

/-- Python `os.environ[k] = v`. -/
def setEnv (env : EnvMap) (k v : String) : EnvMap := (k, v) :: env

/-- Python `os.environ.get(k)`. -/
def getEnv (env : EnvMap) (k : String) : Option String :=
  (env.find? (fun p => p.1 == k)).map (fun p => p.2)

theorem getEnv_set_same (env : EnvMap) (k v : String) :
    getEnv (setEnv env k v) k = some v := by
  simp [getEnv, setEnv, List.find?]

theorem getEnv_set_other (env : EnvMap) (k k2 v : String) (h : (k2 == k) = false) :
    getEnv (setEnv env k2 v) k = getEnv env k := by
  simp [getEnv, setEnv, List.find?, h]

/-- Source translation of the environment preamble of `colabconnect`
(lines 1088-1106): the optional CA-certificate block and the
`disable_ssl_verification` block, both mutating `os.environ`. -/
def colabconnect_env_pre (ca_cert_path : Option String) (ca_exists : Bool)
    (disable_ssl_verification : Bool) (env : EnvMap) : EnvMap :=
  let env :=
    match ca_cert_path with
    | some p =>
        if ca_exists then
          setEnv (setEnv (setEnv (setEnv env "NODE_EXTRA_CA_CERTS" p)
            "SSL_CERT_FILE" p) "REQUESTS_CA_BUNDLE" p) "CURL_CA_BUNDLE" p
        else env
    | none => env
  if disable_ssl_verification then
    setEnv (setEnv (setEnv (setEnv (setEnv env
      "NODE_TLS_REJECT_UNAUTHORIZED" "0") "CURL_CA_BUNDLE" "")
      "SSL_CERT_FILE" "") "GIT_SSL_NO_VERIFY" "1") "npm_config_strict_ssl" "false"
  else env

/-- Source translation of the effect the `colabconnect` entry point (lines
1065-1238) has on the ambient environment `os.environ` of the parent
process.  The tunnel-start phase is lines 1183-1195, reached exactly when
`verify_vscode_cli` succeeded (line 1171).  The function returns the
parent environment as it stands when the call returns: no statement of
the source ever removes these bindings again. -/
def colabconnect_env (ca_cert_path : Option String) (ca_exists : Bool)
    (disable_ssl_verification : Bool) (cli_verified : Bool)
    (proxy_url : String) (proxy_port : Nat) (env : EnvMap) : EnvMap :=
  let env := colabconnect_env_pre ca_cert_path ca_exists disable_ssl_verification env
  if !cli_verified then env
  else
    let proxyVal := "http://" ++ strip_protocol proxy_url ++ ":" ++ toString proxy_port
    setEnv (setEnv (setEnv (setEnv (setEnv (setEnv (setEnv (setEnv (setEnv env
      "HTTPS_PROXY" proxyVal) "HTTP_PROXY" proxyVal) "http_proxy" proxyVal)
      "https_proxy" proxyVal) "NODE_TLS_REJECT_UNAUTHORIZED" "0")
      "CURL_CA_BUNDLE" "") "SSL_CERT_FILE" "") "GIT_SSL_NO_VERIFY" "1")
      "npm_config_strict_ssl" "false"

theorem tunnel_phase_env (env0 : EnvMap) (proxyVal : String) :
    let out := setEnv (setEnv (setEnv (setEnv (setEnv (setEnv (setEnv (setEnv (setEnv env0
      "HTTPS_PROXY" proxyVal) "HTTP_PROXY" proxyVal) "http_proxy" proxyVal)
      "https_proxy" proxyVal) "NODE_TLS_REJECT_UNAUTHORIZED" "0")
      "CURL_CA_BUNDLE" "") "SSL_CERT_FILE" "") "GIT_SSL_NO_VERIFY" "1")
      "npm_config_strict_ssl" "false"
    getEnv out "HTTPS_PROXY" = some proxyVal ∧
    getEnv out "HTTP_PROXY" = some proxyVal ∧
    getEnv out "http_proxy" = some proxyVal ∧
    getEnv out "https_proxy" = some proxyVal ∧
    getEnv out "NODE_TLS_REJECT_UNAUTHORIZED" = some "0" ∧
    getEnv out "CURL_CA_BUNDLE" = some "" ∧
    getEnv out "SSL_CERT_FILE" = some "" ∧
    getEnv out "GIT_SSL_NO_VERIFY" = some "1" ∧
    getEnv out "npm_config_strict_ssl" = some "false" := by
  refine ⟨?_, ?_, ?_, ?_, ?_, ?_, ?_, ?_, ?_⟩ <;>
    simp [getEnv_set_same, getEnv_set_other, getEnv, setEnv, List.find?]

/-- C9 confirmed: whenever the call reaches the tunnel-start phase
(`cli_verified = true`), the parent environment that remains after the
call maps all four proxy variables to `http://` followed by the
normalized host and the port, and carries the five TLS-relaxation
bindings, whatever environment the call started from and whatever the
other arguments were. -/
theorem claim_C9 (ca_cert_path : Option String) (ca_exists : Bool)
    (disable_ssl_verification : Bool) (proxy_url : String) (proxy_port : Nat)
    (env : EnvMap) :
    let out := colabconnect_env ca_cert_path ca_exists disable_ssl_verification true
      proxy_url proxy_port env
    let proxyVal := "http://" ++ strip_protocol proxy_url ++ ":" ++ toString proxy_port
    getEnv out "HTTPS_PROXY" = some proxyVal ∧
    getEnv out "HTTP_PROXY" = some proxyVal ∧
    getEnv out "http_proxy" = some proxyVal ∧
    getEnv out "https_proxy" = some proxyVal ∧
    getEnv out "NODE_TLS_REJECT_UNAUTHORIZED" = some "0" ∧
    getEnv out "CURL_CA_BUNDLE" = some "" ∧
    getEnv out "SSL_CERT_FILE" = some "" ∧
    getEnv out "GIT_SSL_NO_VERIFY" = some "1" ∧
    getEnv out "npm_config_strict_ssl" = some "false" :=
  tunnel_phase_env
    (colabconnect_env_pre ca_cert_path ca_exists disable_ssl_verification env)
    ("http://" ++ strip_protocol proxy_url ++ ":" ++ toString proxy_port)

/-- Witness for C9 from the empty environment with the default proxy
endpoint. -/
theorem claim_C9_witness :
    getEnv (colabconnect_env none false false true "proxy.company.com" 8080 [])
      "HTTP_PROXY" = some "http://proxy.company.com:8080" := by
  have h := (claim_C9 none false false "proxy.company.com" 8080 []).2.1
  simpa using h

/- ### colabconnect.py lines 830-909: configure_proxytunnel variants -/

/-- Python truthiness of an optional string argument (`if proxy_user and
proxy_pass:` treats both `None` and the empty string as false). -/
def truthy : Option String → Bool
  | none => false
  | some s => !s.isEmpty

/-- Source translation of `configure_proxytunnel` (lines 830-859).  The
ephemeral local port picked by `find_available_port` and the resolved
binary path are external and passed in. -/
def configure_proxytunnel (proxytunnel_path proxy_url : String) (proxy_port : Nat)
    (target_host : String) (target_port local_port : Nat) : String × Nat :=
  let clean_proxy_url := strip_protocol proxy_url
  (proxytunnel_path ++ " -p " ++ clean_proxy_url ++ ":" ++ toString proxy_port ++
    " -d " ++ target_host ++ ":" ++ toString target_port ++
    " -a " ++ toString local_port ++ " -v", local_port)

/-- Source translation of `configure_proxytunnel_advanced` (lines 862-909):
the same base command, then the authentication flags of lines 895-900
when both credentials are truthy (NTLM uses `-u`/`-s`, basic uses
`-P user:pass`), then `-E` when SSL to the proxy is requested. -/
def configure_proxytunnel_advanced (proxytunnel_path proxy_url : String)
    (proxy_port : Nat) (target_host : String) (target_port local_port : Nat)
    (proxy_user proxy_pass : Option String) (use_ntlm use_ssl : Bool) :
    String × Nat :=
  let clean_proxy_url := strip_protocol proxy_url
  let command := proxytunnel_path ++ " -p " ++ clean_proxy_url ++ ":" ++
    toString proxy_port ++ " -d " ++ target_host ++ ":" ++ toString target_port ++
    " -a " ++ toString local_port ++ " -v"
  let command :=
    if truthy proxy_user && truthy proxy_pass then
      if use_ntlm then
        command ++ "  -u " ++ proxy_user.getD "" ++ " -s " ++ proxy_pass.getD ""
      else
        command ++ " -P " ++ proxy_user.getD "" ++ ":" ++ proxy_pass.getD ""
    else command
  let command := if use_ssl then command ++ " -E" else command
  (command, local_port)

/-- The first line `start_proxytunnel` (lines 664-674) prints when it is
invoked: it echoes the full generated command verbatim. -/
def start_proxytunnel_first_log (command : String) : String :=
  "Starting Proxytunnel with command: " ++ command

/-- C6, as stated, fails on the code: with credentials `user`/`secret123`
the launch operation `start_proxytunnel` logs the full command line
(line 674), and that log line contains the password value.  The closed
refutation instantiates the claim at this concrete configuration. -/
theorem claim_C6_cx :
    ¬ (∀ pass : String, pass.isEmpty = false →
        subIn pass.data
          (start_proxytunnel_first_log
            ((configure_proxytunnel_advanced "proxytunnel" "proxy.company.com" 8080
              "vscode.dev" 443 5000 (some "user") (some pass) false false).1)).data =
          false) := by
  intro h
  have hfalse := h "secret123" (by decide)
  have htrue :
      subIn "secret123".data
        (start_proxytunnel_first_log
          ((configure_proxytunnel_advanced "proxytunnel" "proxy.company.com" 8080
            "vscode.dev" 443 5000 (some "user") (some "secret123") false false).1)).data =
        true := by decide
  exact absurd (htrue.symm.trans hfalse) (by decide)

theorem strAppend_assoc (a b c : String) : (a ++ b) ++ c = a ++ (b ++ c) := by
  cases a; cases b; cases c
  exact congrArg String.mk (List.append_assoc _ _ _)

theorem strAppend_empty (a : String) : a ++ "" = a := by
  cases a
  exact congrArg String.mk (List.append_nil _)

/-- C6 amended: for every authenticated configuration (both credentials
truthy) the generated command line embeds the username and the password
verbatim, as the claim states; but the password does not stay out of the
logs: the first log line of the launch operation echoes the command, so
the password value occurs verbatim in that log line as well. -/
theorem claim_C6 (proxytunnel_path proxy_url : String) (proxy_port : Nat)
    (target_host : String) (target_port local_port : Nat)
    (user pass : String) (use_ntlm use_ssl : Bool)
    (huser : user.isEmpty = false) (hpass : pass.isEmpty = false) :
    subIn user.data
      ((configure_proxytunnel_advanced proxytunnel_path proxy_url proxy_port
        target_host target_port local_port (some user) (some pass)
        use_ntlm use_ssl).1).data = true ∧
    subIn pass.data
      ((configure_proxytunnel_advanced proxytunnel_path proxy_url proxy_port
        target_host target_port local_port (some user) (some pass)
        use_ntlm use_ssl).1).data = true ∧
    subIn pass.data
      (start_proxytunnel_first_log
        ((configure_proxytunnel_advanced proxytunnel_path proxy_url proxy_port
          target_host target_port local_port (some user) (some pass)
          use_ntlm use_ssl).1)).data = true := by
  have htr : (truthy (some user) && truthy (some pass)) = true := by
    simp [truthy, huser, hpass]
  have hc : (configure_proxytunnel_advanced proxytunnel_path proxy_url proxy_port
      target_host target_port local_port (some user) (some pass)
      use_ntlm use_ssl).1 =
      (if use_ssl then
        (if use_ntlm then
          (proxytunnel_path ++ " -p " ++ strip_protocol proxy_url ++ ":" ++
            toString proxy_port ++ " -d " ++ target_host ++ ":" ++
            toString target_port ++ " -a " ++ toString local_port ++ " -v" ++
            "  -u " ++ user ++ " -s " ++ pass) ++ " -E"
        else
          (proxytunnel_path ++ " -p " ++ strip_protocol proxy_url ++ ":" ++
            toString proxy_port ++ " -d " ++ target_host ++ ":" ++
            toString target_port ++ " -a " ++ toString local_port ++ " -v" ++
            " -P " ++ user ++ ":" ++ pass) ++ " -E")
      else
        (if use_ntlm then
          proxytunnel_path ++ " -p " ++ strip_protocol proxy_url ++ ":" ++
            toString proxy_port ++ " -d " ++ target_host ++ ":" ++
            toString target_port ++ " -a " ++ toString local_port ++ " -v" ++
            "  -u " ++ user ++ " -s " ++ pass
        else
          proxytunnel_path ++ " -p " ++ strip_protocol proxy_url ++ ":" ++
            toString proxy_port ++ " -d " ++ target_host ++ ":" ++
            toString target_port ++ " -a " ++ toString local_port ++ " -v" ++
            " -P " ++ user ++ ":" ++ pass)) := by
    rw [configure_proxytunnel_advanced]
    simp only [htr, if_true, Option.getD]
    cases use_ntlm <;> cases use_ssl <;> simp
  cases hn : use_ntlm <;> cases hs : use_ssl <;> rw [hn, hs] at hc <;>
    simp only [if_true, if_false, Bool.false_eq_true, ite_true, ite_false] at hc <;>
    refine ⟨?_, ?_, ?_⟩ <;>
    simp only [hc, start_proxytunnel_first_log, strData_append, List.append_assoc] <;>
    repeat (first
      | exact subIn_self _
      | exact subIn_head _ _
      | apply subIn_append_left)

/-- Witness for C6: the basic-auth configuration for the default proxy with
password `secret123` embeds the password in the command and the launch
log line echoes it. -/
theorem claim_C6_witness :
    subIn "secret123".data
      ((configure_proxytunnel_advanced "proxytunnel" "proxy.company.com" 8080
        "vscode.dev" 443 5000 (some "user") (some "secret123") false false).1).data =
      true ∧
    subIn "secret123".data
      (start_proxytunnel_first_log
        ((configure_proxytunnel_advanced "proxytunnel" "proxy.company.com" 8080
          "vscode.dev" 443 5000 (some "user") (some "secret123") false false).1)).data =
      true :=
  ⟨(claim_C6 "proxytunnel" "proxy.company.com" 8080 "vscode.dev" 443 5000
      "user" "secret123" false false (by decide) (by decide)).2.1,
   (claim_C6 "proxytunnel" "proxy.company.com" 8080 "vscode.dev" 443 5000
      "user" "secret123" false false (by decide) (by decide)).2.2⟩

/- ### colabconnect.py lines 363-428 and 733-828: the connectivity probes -/

/-- Outcome of one `subprocess.run` curl attempt, as the probe code
observes it: process completion with an exit code and (stripped) stdout
text, a `TimeoutExpired`, or another exception. -/
inductive CmdResult
  | completed (returncode : Nat) (stdout : String)
  | timeoutExpired
  | exc
deriving DecidableEq

/-- The five test URLs of lines 383-389, repeated verbatim at lines
751-757. -/
def test_urls : List String :=
  ["https://github.com", "https://ifconfig.me", "https://api.ipify.org",
   "https://icanhazip.com", "https://checkip.amazonaws.com"]

/-- The inner retry loop `for attempt in range(1, 4)` shared by both
probes: runs attempts in order, stops at the first attempt the success
test accepts.  Returns the attempts performed and whether one
succeeded. -/
def attempt_loop (succ : Nat → Bool) : List Nat → List Nat × Bool
  | [] => ([], false)
  | a :: rest =>
      if succ a then ([a], true)
      else
        let r := attempt_loop succ rest
        (a :: r.1, r.2)

/-- The outer URL loop shared by both probes (`for test_url in
test_urls:`): iterates URL indices in listed order, three attempts per
URL, returning the trace of performed (url index, attempt number) pairs
and the overall outcome.  `test_proxychains` returns `True` directly
from the attempt loop (line 410); `test_proxytunnel_connection` sets its
`success` flag and breaks out of both loops (lines 786-787, 818-819) —
observably the same trace and result. -/
def url_loop (succ : Nat → Nat → Bool) : List Nat → List (Nat × Nat) × Bool
  | [] => ([], false)
  | u :: us =>
      let inner := attempt_loop (succ u) [1, 2, 3]
      if inner.2 then (inner.1.map (fun a => (u, a)), true)
      else
        let rest := url_loop succ us
        (inner.1.map (fun a => (u, a)) ++ rest.1, rest.2)

/-- Success test of `test_proxychains` line 408: exit code zero, with no
condition on the output text. -/
def isSuccessPC : CmdResult → Bool
  | CmdResult.completed 0 _ => true
  | _ => false

/-- Success test of `test_proxytunnel_connection` lines 782-787: exit code
zero and a non-empty stripped response. -/
def isSuccessPT : CmdResult → Bool
  | CmdResult.completed 0 stdout => !stdout.isEmpty
  | _ => false

/-- Source translation of `test_proxychains` (lines 363-428).  The oracle
`res` gives the outcome of the curl attempt for URL index `u`, attempt
number `a`. -/
def test_proxychains (res : Nat → Nat → CmdResult) : List (Nat × Nat) × Bool :=
  url_loop (fun u a => isSuccessPC (res u a)) (List.range test_urls.length)

/-- Source translation of `test_proxytunnel_connection` (lines 733-828).
When `start_proxytunnel` fails (line 747-748) the probe returns `False`
without any attempt; otherwise it runs the same URL/attempt loops with
the non-empty-response success test. -/
def test_proxytunnel_connection (process_started : Bool)
    (res : Nat → Nat → CmdResult) : List (Nat × Nat) × Bool :=
  if process_started then
    url_loop (fun u a => isSuccessPT (res u a)) (List.range test_urls.length)
  else ([], false)

theorem attempt_loop_length (succ : Nat → Bool) (l : List Nat) :
    (attempt_loop succ l).1.length ≤ l.length := by
  induction l with
  | nil => simp [attempt_loop]
  | cons a rest ih =>
      by_cases h : succ a = true
      · simp [attempt_loop, h]
      · simp only [attempt_loop, Bool.not_eq_true] at h ⊢
        rw [h]
        simpa using Nat.succ_le_succ ih

theorem url_loop_length (succ : Nat → Nat → Bool) (l : List Nat) :
    (url_loop succ l).1.length ≤ l.length * 3 := by
  induction l with
  | nil => simp [url_loop]
  | cons u us ih =>
      have hin : (attempt_loop (succ u) [1, 2, 3]).1.length ≤ 3 :=
        attempt_loop_length (succ u) [1, 2, 3]
      by_cases h : (attempt_loop (succ u) [1, 2, 3]).2 = true
      · simp only [url_loop, h, if_true, List.length_map]
        calc (attempt_loop (succ u) [1, 2, 3]).1.length ≤ 3 := hin
          _ ≤ (us.length + 1) * 3 := by omega
      · simp only [url_loop, Bool.not_eq_true] at h ⊢
        rw [h]
        simp only [Bool.false_eq_true, if_false, List.length_append, List.length_map]
        calc (attempt_loop (succ u) [1, 2, 3]).1.length + (url_loop succ us).1.length
            ≤ 3 + us.length * 3 := Nat.add_le_add hin ih
          _ = (us.length + 1) * 3 := by ring

theorem attempt_loop_sublist (succ : Nat → Bool) (l : List Nat) :
    List.Sublist (attempt_loop succ l).1 l := by
  induction l with
  | nil => simp [attempt_loop]
  | cons a rest ih =>
      by_cases h : succ a = true
      · simp only [attempt_loop, h, if_true]
        exact (List.nil_sublist rest).cons₂ a
      · simp only [attempt_loop, h, Bool.false_eq_true, if_false]
        exact ih.cons₂ a

theorem url_loop_firsts (succ : Nat → Nat → Bool) (l : List Nat) :
    ∀ p ∈ (url_loop succ l).1, p.1 ∈ l := by
  induction l with
  | nil => simp [url_loop]
  | cons u us ih =>
      intro p hp
      by_cases h : (attempt_loop (succ u) [1, 2, 3]).2 = true
      · simp only [url_loop, h, if_true] at hp
        rw [List.mem_map] at hp
        obtain ⟨a, _, hpa⟩ := hp
        rw [← hpa]
        exact List.mem_cons_self u us
      · simp only [url_loop, Bool.not_eq_true] at h
        simp only [url_loop, h, Bool.false_eq_true, if_false, List.mem_append] at hp
        cases hp with
        | inl hmem =>
            rw [List.mem_map] at hmem
            obtain ⟨a, _, hpa⟩ := hmem
            rw [← hpa]
            exact List.mem_cons_self u us
        | inr hmem => exact List.mem_cons_of_mem u (ih p hmem)

/-- Order of probe attempts: earlier URL, or same URL with earlier attempt
number. -/
def lexLt (p q : Nat × Nat) : Prop := p.1 < q.1 ∨ (p.1 = q.1 ∧ p.2 < q.2)

instance lexLt_decidable (p q : Nat × Nat) : Decidable (lexLt p q) := by
  unfold lexLt
  infer_instance

theorem url_loop_pairwise (succ : Nat → Nat → Bool) (l : List Nat)
    (hl : l.Pairwise (· < ·)) : (url_loop succ l).1.Pairwise lexLt := by
  induction l with
  | nil => simp [url_loop]
  | cons u us ih =>
      rw [List.pairwise_cons] at hl
      obtain ⟨hu, hus⟩ := hl
      have hinner : ((attempt_loop (succ u) [1, 2, 3]).1.map
          (fun a => (u, a))).Pairwise lexLt := by
        rw [List.pairwise_map]
        have h123 : ([1, 2, 3] : List Nat).Pairwise (· < ·) := by decide
        have hp : (attempt_loop (succ u) [1, 2, 3]).1.Pairwise (· < ·) :=
          h123.sublist (attempt_loop_sublist (succ u) [1, 2, 3])
        exact hp.imp (fun hab => Or.inr ⟨rfl, hab⟩)
      by_cases h : (attempt_loop (succ u) [1, 2, 3]).2 = true
      · simp only [url_loop, h, if_true]
        exact hinner
      · simp only [url_loop, Bool.not_eq_true] at h
        simp only [url_loop, h, Bool.false_eq_true, if_false]
        rw [List.pairwise_append]
        refine ⟨hinner, ih hus, ?_⟩
        intro x hx y hy
        rw [List.mem_map] at hx
        obtain ⟨a, _, hxa⟩ := hx
        have hy1 : y.1 ∈ us := url_loop_firsts succ us y hy
        rw [← hxa]
        exact Or.inl (hu y.1 hy1)

theorem attempt_loop_spec (succ : Nat → Bool) (l : List Nat) :
    ((attempt_loop succ l).2 = true →
      ∃ tr a, (attempt_loop succ l).1 = tr ++ [a] ∧ succ a = true ∧
        ∀ b ∈ tr, succ b = false) ∧
    ((attempt_loop succ l).2 = false →
      ∀ a ∈ (attempt_loop succ l).1, succ a = false) := by
  induction l with
  | nil => simp [attempt_loop]
  | cons a rest ih =>
      by_cases h : succ a = true
      · simp only [attempt_loop, h, if_true]
        refine ⟨fun _ => ⟨[], a, by simp, h, by simp⟩, fun hfalse => ?_⟩
        simp at hfalse
      · simp only [attempt_loop, h, Bool.false_eq_true, if_false]
        constructor
        · intro htrue
          obtain ⟨tr, b, htr, hb, hall⟩ := ih.1 htrue
          refine ⟨a :: tr, b, by simp [htr], hb, ?_⟩
          intro c hc
          rw [List.mem_cons] at hc
          cases hc with
          | inl hca => rw [hca]; simpa using h
          | inr hctr => exact hall c hctr
        · intro hfalse c hc
          rw [List.mem_cons] at hc
          cases hc with
          | inl hca => rw [hca]; simpa using h
          | inr hctr => exact ih.2 hfalse c hctr

theorem url_loop_spec (succ : Nat → Nat → Bool) (l : List Nat) :
    ((url_loop succ l).2 = true →
      ∃ tr p, (url_loop succ l).1 = tr ++ [p] ∧ succ p.1 p.2 = true ∧
        ∀ q ∈ tr, succ q.1 q.2 = false) ∧
    ((url_loop succ l).2 = false →
      ∀ p ∈ (url_loop succ l).1, succ p.1 p.2 = false) := by
  induction l with
  | nil => simp [url_loop]
  | cons u us ih =>
      by_cases h : (attempt_loop (succ u) [1, 2, 3]).2 = true
      · simp only [url_loop, h, if_true]
        constructor
        · intro _
          obtain ⟨tr, a, htr, ha, hall⟩ := (attempt_loop_spec (succ u) [1, 2, 3]).1 h
          refine ⟨tr.map (fun a => (u, a)), (u, a), by simp [htr], ha, ?_⟩
          intro q hq
          rw [List.mem_map] at hq
          obtain ⟨b, hb, hqb⟩ := hq
          rw [← hqb]
          exact hall b hb
        · intro hfalse
          simp at hfalse
      · simp only [url_loop, Bool.not_eq_true] at h
        simp only [url_loop, h, Bool.false_eq_true, if_false]
        have hallu : ∀ q ∈ (attempt_loop (succ u) [1, 2, 3]).1.map (fun a => (u, a)),
            succ q.1 q.2 = false := by
          intro q hq
          rw [List.mem_map] at hq
          obtain ⟨b, hb, hqb⟩ := hq
          rw [← hqb]
          exact (attempt_loop_spec (succ u) [1, 2, 3]).2 h b hb
        constructor
        · intro htrue
          obtain ⟨tr, p, htr, hp, hall⟩ := ih.1 htrue
          refine ⟨(attempt_loop (succ u) [1, 2, 3]).1.map (fun a => (u, a)) ++ tr, p,
            by rw [htr, List.append_assoc], hp, ?_⟩
          intro q hq
          rw [List.mem_append] at hq
          cases hq with
          | inl hqm => exact hallu q hqm
          | inr hqtr => exact hall q hqtr
        · intro hfalse q hq
          rw [List.mem_append] at hq
          cases hq with
          | inl hqm => exact hallu q hqm
          | inr hqtr => exact ih.2 hfalse q hqtr

/-- C2 confirmed: each probe performs at most `len(test_urls) * 3`
attempts, performs them URL-major in listed order (strictly increasing
in `lexLt`), and, whenever it reports success, the successful attempt is
the last one performed — every earlier attempt failed its success test,
and no later URL or attempt was tried. -/
theorem claim_C2 (res : Nat → Nat → CmdResult) (process_started : Bool) :
    (test_proxychains res).1.length ≤ test_urls.length * 3 ∧
    (test_proxytunnel_connection process_started res).1.length ≤
      test_urls.length * 3 ∧
    (test_proxychains res).1.Pairwise lexLt ∧
    (test_proxytunnel_connection process_started res).1.Pairwise lexLt ∧
    ((test_proxychains res).2 = true →
      ∃ tr p, (test_proxychains res).1 = tr ++ [p] ∧
        isSuccessPC (res p.1 p.2) = true ∧
        ∀ q ∈ tr, isSuccessPC (res q.1 q.2) = false) ∧
    ((test_proxytunnel_connection process_started res).2 = true →
      ∃ tr p, (test_proxytunnel_connection process_started res).1 = tr ++ [p] ∧
        isSuccessPT (res p.1 p.2) = true ∧
        ∀ q ∈ tr, isSuccessPT (res q.1 q.2) = false) := by
  have hrange : (List.range test_urls.length).Pairwise (· < ·) := List.pairwise_lt_range _
  have hlen : ∀ succ : Nat → Nat → Bool,
      (url_loop succ (List.range test_urls.length)).1.length ≤ test_urls.length * 3 := by
    intro succ
    have := url_loop_length succ (List.range test_urls.length)
    simpa using this
  cases process_started with
  | false =>
      refine ⟨hlen _, by simp [test_proxytunnel_connection], ?_, ?_, ?_, ?_⟩
      · exact url_loop_pairwise _ _ hrange
      · simp [test_proxytunnel_connection]
      · exact (url_loop_spec _ _).1
      · simp [test_proxytunnel_connection]
  | true =>
      refine ⟨hlen _, ?_, ?_, ?_, ?_, ?_⟩
      · simpa [test_proxytunnel_connection] using hlen _
      · exact url_loop_pairwise _ _ hrange
      · simpa [test_proxytunnel_connection] using
          url_loop_pairwise (fun u a => isSuccessPT (res u a)) _ hrange
      · exact (url_loop_spec _ _).1
      · simpa [test_proxytunnel_connection] using
          (url_loop_spec (fun u a => isSuccessPT (res u a)) (List.range test_urls.length)).1

/-- Witness for C2: a run whose third URL answers on its second attempt
reports success, and its trace confirms the theorem at that input. -/
theorem claim_C2_witness :
    ∃ tr p,
      (test_proxychains (fun u a =>
        if u == 2 && a == 2 then CmdResult.completed 0 "1.2.3.4"
        else CmdResult.completed 7 "")).1 = tr ++ [p] ∧
      isSuccessPC ((fun u a =>
        if u == 2 && a == 2 then CmdResult.completed 0 "1.2.3.4"
        else CmdResult.completed 7 "") p.1 p.2) = true ∧
      ∀ q ∈ tr, isSuccessPC ((fun u a =>
        if u == 2 && a == 2 then CmdResult.completed 0 "1.2.3.4"
        else CmdResult.completed 7 "") q.1 q.2) = false :=
  (claim_C2 (fun u a =>
      if u == 2 && a == 2 then CmdResult.completed 0 "1.2.3.4"
      else CmdResult.completed 7 "") true).2.2.2.2.1 (by decide)

theorem isSuccessPC_inv (r : CmdResult) (h : isSuccessPC r = true) :
    ∃ s, r = CmdResult.completed 0 s := by
  cases r with
  | completed rc s =>
      cases rc with
      | zero => exact ⟨s, rfl⟩
      | succ n => simp [isSuccessPC] at h
  | timeoutExpired => simp [isSuccessPC] at h
  | exc => simp [isSuccessPC] at h

theorem isSuccessPT_inv (r : CmdResult) (h : isSuccessPT r = true) :
    ∃ s, r = CmdResult.completed 0 s ∧ s.isEmpty = false := by
  cases r with
  | completed rc s =>
      cases rc with
      | zero =>
          refine ⟨s, rfl, ?_⟩
          simpa [isSuccessPT] using h
      | succ n => simp [isSuccessPT] at h
  | timeoutExpired => simp [isSuccessPT] at h
  | exc => simp [isSuccessPT] at h

/-- C3, as stated over every probe, fails on the code: `test_proxychains`
declares success on any exit-code-zero attempt, with no check on the
response text (line 408).  The refutation runs the probe against an
oracle all of whose attempts complete with exit code 0 and an empty
response: the probe still reports success, although no attempt returned
a byte. -/
theorem claim_C3_cx :
    ¬ (∀ res : Nat → Nat → CmdResult, (test_proxychains res).2 = true →
        ∃ u a s, res u a = CmdResult.completed 0 s ∧ s.isEmpty = false) := by
  intro h
  obtain ⟨u, a, s, hres, hne⟩ :=
    h (fun _ _ => CmdResult.completed 0 "") (by decide)
  have hs : s = "" := by
    injection hres with h1 h2
    exact h2.symm
  rw [hs] at hne
  exact absurd hne (by decide)

/-- C3 amended: the non-empty-response requirement holds for the
proxytunnel probe — when `test_proxytunnel_connection` reports success,
its final attempt completed with exit code 0 and a non-empty response,
and every earlier attempt had failed its test — while `test_proxychains`
guarantees only that its final attempt completed with exit code 0,
counting an empty response as success. -/
theorem claim_C3 (res : Nat → Nat → CmdResult) (process_started : Bool) :
    ((test_proxytunnel_connection process_started res).2 = true →
      ∃ tr p s, (test_proxytunnel_connection process_started res).1 = tr ++ [p] ∧
        res p.1 p.2 = CmdResult.completed 0 s ∧ s.isEmpty = false) ∧
    ((test_proxychains res).2 = true →
      ∃ tr p s, (test_proxychains res).1 = tr ++ [p] ∧
        res p.1 p.2 = CmdResult.completed 0 s) := by
  constructor
  · intro htrue
    cases process_started with
    | false => simp [test_proxytunnel_connection] at htrue
    | true =>
        have hb : (url_loop (fun u a => isSuccessPT (res u a))
            (List.range test_urls.length)).2 = true := by
          simpa [test_proxytunnel_connection] using htrue
        obtain ⟨tr, p, htr, hp, _⟩ :=
          (url_loop_spec (fun u a => isSuccessPT (res u a))
            (List.range test_urls.length)).1 hb
        obtain ⟨s, hs, hne⟩ := isSuccessPT_inv _ hp
        exact ⟨tr, p, s, by simpa [test_proxytunnel_connection] using htr, hs, hne⟩
  · intro htrue
    obtain ⟨tr, p, htr, hp, _⟩ :=
      (url_loop_spec (fun u a => isSuccessPC (res u a))
        (List.range test_urls.length)).1 htrue
    obtain ⟨s, hs⟩ := isSuccessPC_inv _ hp
    exact ⟨tr, p, s, htr, hs⟩

/-- Witness for C3 at an oracle whose first attempt answers `1.2.3.4`
with exit code 0: the proxytunnel probe reports success and the theorem
produces the successful non-empty final attempt. -/
theorem claim_C3_witness :
    ∃ tr p s,
      (test_proxytunnel_connection true
        (fun _ _ => CmdResult.completed 0 "1.2.3.4")).1 = tr ++ [p] ∧
      (fun _ _ => CmdResult.completed 0 "1.2.3.4") p.1 p.2 =
        CmdResult.completed 0 s ∧
      s.isEmpty = false :=
  (claim_C3 (fun _ _ => CmdResult.completed 0 "1.2.3.4") true).1 (by decide)

/- ### colabconnect.py lines 593-649: start_tunnel_with_fallbacks -/

/-- The three proxytunnel targets of lines 609-613. -/
def targets : List (String × Nat) :=
  [("vscode.dev", 443), ("global.rel.tunnels.api.visualstudio.com", 443),
   ("online.visualstudio.com", 443)]

/-- Observable attempts of one orchestration run: a connectivity test of
proxytunnel target `i` with its outcome, and the three workload runs
(through proxytunnel, through proxychains, or direct). -/
inductive Att
  | etTest (i : Nat) (ok : Bool)
  | runET
  | runPC
  | runDirect
deriving DecidableEq

/-- The target loop of lines 615-637: tests targets in order, stops at the
first target whose `test_proxytunnel_connection` succeeds.  `ptTest i`
is the oracle outcome of the test for target index `i`. -/
def etPhase (ptTest : Nat → Bool) : List Nat → List Att × Bool
  | [] => ([], false)
  | i :: rest =>
      if ptTest i then ([Att.etTest i true], true)
      else
        let r := etPhase ptTest rest
        (Att.etTest i false :: r.1, r.2)

/-- Source translation of `start_tunnel_direct` (lines 992-1033): runs the
workload directly, with no further fallback. -/
def start_tunnel_direct_run : List Att := [Att.runDirect]

/-- The runtime behaviour of `start_tunnel_with_proxytunnel` once the
orchestrator commits to proxytunnel (lines 429-590): the workload runs
through the tunnel; when it exits non-zero the function itself falls
back to `start_tunnel_direct` (lines 570-576). -/
def start_tunnel_with_proxytunnel_run (workload_exit_zero : Bool) : List Att :=
  Att.runET :: (if workload_exit_zero then [] else start_tunnel_direct_run)

/-- The runtime behaviour of `start_tunnel` (lines 911-989): with
proxychains installed the workload runs through proxychains and falls
back to `start_tunnel_direct` when it exits non-zero (lines 981-987);
without proxychains it runs directly with no fallback. -/
def start_tunnel_run (proxychains_installed workload_exit_zero : Bool) : List Att :=
  if proxychains_installed then
    Att.runPC :: (if workload_exit_zero then [] else start_tunnel_direct_run)
  else start_tunnel_direct_run

/-- Source translation of `start_tunnel_with_fallbacks` (lines 593-649):
when proxytunnel is installed, the target loop runs; on a validated
target the orchestrator commits and the run continues inside
`start_tunnel_with_proxytunnel`; otherwise proxychains is tried when
installable, and a direct run is the last resort.  The booleans are the
install-check and workload-exit oracles. -/
def start_tunnel_with_fallbacks (proxytunnel_installed proxychains_installed : Bool)
    (ptTest : Nat → Bool) (et_exit_zero pc_exit_zero : Bool) : List Att :=
  let e :=
    if proxytunnel_installed then etPhase ptTest (List.range targets.length)
    else ([], false)
  if e.2 then e.1 ++ start_tunnel_with_proxytunnel_run et_exit_zero
  else if proxychains_installed then
    e.1 ++ start_tunnel_run proxychains_installed pc_exit_zero
  else e.1 ++ start_tunnel_direct_run

/-- Priority rank of an attempt in the claimed default order. -/
def attRank : Att → Nat
  | Att.etTest i _ => i
  | Att.runET => 3
  | Att.runPC => 4
  | Att.runDirect => 5

/-- C1, as stated, fails on the code: the claim allows a later strategy
only after every earlier candidate was rejected at build/install time or
failed its connectivity test, but when a committed workload exits
non-zero the runner falls back to a direct run at once.  Concretely,
with proxytunnel not installed, proxychains installed, and the
proxychains workload exiting non-zero, the run attempts Direct even
though ChainedProxy was neither rejected at install nor failed a
connectivity test. -/
theorem claim_C1_cx :
    ¬ (∀ (pt pc : Bool) (t : Nat → Bool) (a b : Bool),
        Att.runDirect ∈ start_tunnel_with_fallbacks pt pc t a b →
        pc = false ∧ (pt = false ∨ ∀ i, i < 3 → t i = false)) := by
  intro h
  have hm : Att.runDirect ∈ start_tunnel_with_fallbacks false true (fun _ => false) true false := by
    decide
  exact absurd (h false true (fun _ => false) true false hm).1 (by decide)

/-- Boolean specialisation of the fallback run: the source only ever
evaluates the test oracle at the three target indices, so the run is a
function of seven booleans. -/
def stwfB (pt pc x0 x1 x2 a b : Bool) : List Att :=
  start_tunnel_with_fallbacks pt pc
    (fun i => if i == 0 then x0 else if i == 1 then x1 else x2) a b

theorem stwf_congr (pt pc : Bool) (t t2 : Nat → Bool) (a b : Bool)
    (h0 : t 0 = t2 0) (h1 : t 1 = t2 1) (h2 : t 2 = t2 2) :
    start_tunnel_with_fallbacks pt pc t a b =
      start_tunnel_with_fallbacks pt pc t2 a b := by
  have hr : List.range targets.length = [0, 1, 2] := rfl
  simp only [start_tunnel_with_fallbacks, hr, etPhase, h0, h1, h2]

theorem stwfB_pairwise : ∀ (pt pc x0 x1 x2 a b : Bool),
    (stwfB pt pc x0 x1 x2 a b).Pairwise (fun x y => attRank x < attRank y) := by
  decide

theorem stwfB_runPC : ∀ (pt pc x0 x1 x2 a b : Bool),
    Att.runPC ∈ stwfB pt pc x0 x1 x2 a b →
      pc = true ∧ (pt = false ∨ (x0 = false ∧ x1 = false ∧ x2 = false)) := by
  decide

theorem stwfB_runDirect_iff (pt pc x0 x1 x2 a b : Bool) :
    Att.runDirect ∈ stwfB pt pc x0 x1 x2 a b ↔
      ((pt = true ∧ (x0 = true ∨ x1 = true ∨ x2 = true)) ∧ a = false) ∨
      (¬(pt = true ∧ (x0 = true ∨ x1 = true ∨ x2 = true)) ∧ pc = true ∧ b = false) ∨
      (¬(pt = true ∧ (x0 = true ∨ x1 = true ∨ x2 = true)) ∧ pc = false) := by
  cases pt <;> cases pc <;> cases x0 <;> cases x1 <;> cases x2 <;> cases a <;>
    cases b <;> decide

theorem stwfB_commit_stops (pt pc x0 x1 x2 a b : Bool) :
    (Att.etTest 0 true ∈ stwfB pt pc x0 x1 x2 a b →
      Att.runPC ∉ stwfB pt pc x0 x1 x2 a b ∧
      (∀ o, Att.etTest 1 o ∉ stwfB pt pc x0 x1 x2 a b) ∧
      (∀ o, Att.etTest 2 o ∉ stwfB pt pc x0 x1 x2 a b)) ∧
    (Att.etTest 1 true ∈ stwfB pt pc x0 x1 x2 a b →
      Att.runPC ∉ stwfB pt pc x0 x1 x2 a b ∧
      (∀ o, Att.etTest 2 o ∉ stwfB pt pc x0 x1 x2 a b)) ∧
    (Att.etTest 2 true ∈ stwfB pt pc x0 x1 x2 a b →
      Att.runPC ∉ stwfB pt pc x0 x1 x2 a b) := by
  cases pt <;> cases pc <;> cases x0 <;> cases x1 <;> cases x2 <;> cases a <;>
    cases b <;> decide

/-- C1 amended: the orchestrator enumerates candidates in the fixed
priority order (the three proxytunnel targets, then proxychains, then
direct); proxychains is attempted only when proxytunnel was rejected at
install time or every target failed its connectivity test; committing to
a validated target stops the enumeration (no later target, and no
proxychains run); however, Direct is additionally attempted as a runtime
fallback whenever the committed workload run exits non-zero — not only
after every earlier candidate was rejected or failed its test. -/
theorem claim_C1 (pt pc : Bool) (t : Nat → Bool) (a b : Bool) (tr : List Att)
    (htr : tr = start_tunnel_with_fallbacks pt pc t a b) :
    tr.Pairwise (fun x y => attRank x < attRank y) ∧
    (Att.runPC ∈ tr →
      pc = true ∧ (pt = false ∨ (t 0 = false ∧ t 1 = false ∧ t 2 = false))) ∧
    (Att.runDirect ∈ tr ↔
      ((pt = true ∧ (t 0 = true ∨ t 1 = true ∨ t 2 = true)) ∧ a = false) ∨
      (¬(pt = true ∧ (t 0 = true ∨ t 1 = true ∨ t 2 = true)) ∧ pc = true ∧ b = false) ∨
      (¬(pt = true ∧ (t 0 = true ∨ t 1 = true ∨ t 2 = true)) ∧ pc = false)) ∧
    (Att.etTest 0 true ∈ tr →
      Att.runPC ∉ tr ∧ (∀ o, Att.etTest 1 o ∉ tr) ∧ (∀ o, Att.etTest 2 o ∉ tr)) ∧
    (Att.etTest 1 true ∈ tr →
      Att.runPC ∉ tr ∧ (∀ o, Att.etTest 2 o ∉ tr)) ∧
    (Att.etTest 2 true ∈ tr → Att.runPC ∉ tr) := by
  subst htr
  have ht : start_tunnel_with_fallbacks pt pc t a b =
      stwfB pt pc (t 0) (t 1) (t 2) a b :=
    stwf_congr pt pc t _ a b rfl rfl rfl
  rw [ht]
  have hcs := stwfB_commit_stops pt pc (t 0) (t 1) (t 2) a b
  exact ⟨stwfB_pairwise pt pc (t 0) (t 1) (t 2) a b,
    stwfB_runPC pt pc (t 0) (t 1) (t 2) a b,
    stwfB_runDirect_iff pt pc (t 0) (t 1) (t 2) a b,
    hcs.1, hcs.2.1, hcs.2.2⟩

/-- Witness for C1: with both helpers installed and the second target
passing its test, the run commits to that target and never reaches
proxychains or direct. -/
theorem claim_C1_witness :
    Att.runPC ∉ start_tunnel_with_fallbacks true true (fun i => i == 1) true true ∧
    Att.runDirect ∉ start_tunnel_with_fallbacks true true (fun i => i == 1) true true := by
  have h := claim_C1 true true (fun i => i == 1) true true _ rfl
  refine ⟨(h.2.2.2.2.1 (by decide)).1, ?_⟩
  rw [h.2.2.1]
  decide

/- ### colabconnect.py lines 119-214: ProxyHTTPRequestHandler CONNECT path -/

/-- Outcome of one `recv` on a socket, as `_forward_data` observes it:
some data (Python returns the empty byte string at end of stream), or
an exception.  `sendOk` models whether the following `sendall` of that
data to the opposite socket raises. -/
inductive RecvRes
  | data (d : List Nat) (sendOk : Bool)
  | recvErr
deriving DecidableEq

/-- One iteration of the `select.select` loop of lines 165-201: whether
`select` itself raised, whether a socket was reported exceptional, and
the read outcome for each socket that was reported readable (`none`
models a socket that was not readable this round). -/
structure Ev where
  selectErr : Bool
  exceptional : Bool
  clientRead : Option RecvRes
  targetRead : Option RecvRes
deriving DecidableEq

/-- One iteration of the forwarding loop body (lines 166-201), in source
order: a `select` error breaks; an exceptional socket breaks; a readable
client socket is read first — an error, empty data, or a failed
`sendall` to the target breaks, data is otherwise forwarded to the
target; then the readable target socket is handled symmetrically.
Result: data forwarded to the target and to the client this iteration,
and whether the loop stops. -/
def forward_step (e : Ev) : Option (List Nat) × Option (List Nat) × Bool :=
  if e.selectErr then (none, none, true)
  else if e.exceptional then (none, none, true)
  else
    match e.clientRead with
    | some RecvRes.recvErr => (none, none, true)
    | some (RecvRes.data d sendOk) =>
        if d.isEmpty then (none, none, true)
        else if sendOk then
          match e.targetRead with
          | some RecvRes.recvErr => (some d, none, true)
          | some (RecvRes.data d2 sendOk2) =>
              if d2.isEmpty then (some d, none, true)
              else if sendOk2 then (some d, some d2, false)
              else (some d, none, true)
          | none => (some d, none, false)
        else (none, none, true)
    | none =>
        match e.targetRead with
        | some RecvRes.recvErr => (none, none, true)
        | some (RecvRes.data d2 sendOk2) =>
            if d2.isEmpty then (none, none, true)
            else if sendOk2 then (none, some d2, false)
            else (none, none, true)
        | none => (none, none, false)

/-- The forwarding loop over a trace of select iterations: accumulates the
chunks forwarded in each direction, stopping at the first iteration that
breaks.  The third component records whether the loop exited within the
trace. -/
def forward_loop : List Ev → List (List Nat) × List (List Nat) × Bool
  | [] => ([], [], false)
  | e :: es =>
      match forward_step e with
      | (t, c, true) => (t.toList, c.toList, true)
      | (t, c, false) =>
          let r := forward_loop es
          (t.toList ++ r.1, c.toList ++ r.2.1, r.2.2)

/-- Final state of one relay session after `_forward_data` (lines
150-214) returns: the forwarded chunks in both directions, the two
socket-closed flags, and whether an exception escaped.  The `finally`
block of lines 204-214 closes both sockets on every exit path, and the
enclosing `try`/`except` of lines 156-203 catches every exception, so
the function always returns normally with both flags set. -/
structure SessionEnd where
  toTarget : List (List Nat)
  toClient : List (List Nat)
  clientClosed : Bool
  targetClosed : Bool
  raised : Bool
deriving DecidableEq

/-- Source translation of `_forward_data` (lines 150-214) on a trace of
select iterations. -/
def forward_data (events : List Ev) : SessionEnd :=
  let r := forward_loop events
  { toTarget := r.1
    toClient := r.2.1
    clientClosed := true
    targetClosed := true
    raised := false }

/-- Result of `do_CONNECT` (lines 119-148): the response status sent to
the client and, on success, the session outcome of the forwarding
phase.  `connectOk` models whether the direct TCP connection of lines
129-134 succeeds; on failure the handler catches the exception and
replies 502 without forwarding. -/
structure ConnectOutcome where
  status : Nat
  reason : String
  session : Option SessionEnd
deriving DecidableEq

/-- Source translation of `do_CONNECT` (lines 119-148). -/
def do_CONNECT (connectOk : Bool) (events : List Ev) : ConnectOutcome :=
  if connectOk then
    { status := 200, reason := "Connection Established",
      session := some (forward_data events) }
  else
    { status := 502, reason := "Bad Gateway", session := none }

/-- C7 confirmed: on a successful direct connection the handler replies
200 Connection Established and forwards; on a failed connection it
replies 502 and that session performs no forwarding; every session ends
with both sockets closed and no exception escaping the handler (errors
terminate only that session); the loop stops at the first iteration
that observes a close or error, ignoring all later events; and while the
loop runs, chunks are forwarded in receipt order in both directions. -/
theorem claim_C7 :
    (∀ events : List Ev,
      (do_CONNECT true events).status = 200 ∧
      (do_CONNECT true events).reason = "Connection Established" ∧
      (do_CONNECT true events).session = some (forward_data events)) ∧
    (∀ events : List Ev,
      (do_CONNECT false events).status = 502 ∧
      (do_CONNECT false events).session = none) ∧
    (∀ events : List Ev,
      (forward_data events).clientClosed = true ∧
      (forward_data events).targetClosed = true ∧
      (forward_data events).raised = false) ∧
    (∀ (e : Ev) (es es2 : List Ev), (forward_step e).2.2 = true →
      forward_data (e :: es) = forward_data (e :: es2)) ∧
    (∀ (e : Ev) (es : List Ev), (forward_step e).2.2 = false →
      (forward_data (e :: es)).toTarget =
        (forward_step e).1.toList ++ (forward_data es).toTarget ∧
      (forward_data (e :: es)).toClient =
        (forward_step e).2.1.toList ++ (forward_data es).toClient) := by
  refine ⟨?_, ?_, ?_, ?_, ?_⟩
  · intro events
    exact ⟨rfl, rfl, rfl⟩
  · intro events
    exact ⟨rfl, rfl⟩
  · intro events
    exact ⟨rfl, rfl, rfl⟩
  · intro e es es2 hstop
    have hsplit : ∃ t c, forward_step e = (t, c, true) := by
      refine ⟨(forward_step e).1, (forward_step e).2.1, ?_⟩
      rw [← hstop]
    obtain ⟨t, c, hsp⟩ := hsplit
    simp [forward_data, forward_loop, hsp]
  · intro e es hcont
    have hsplit : ∃ t c, forward_step e = (t, c, false) := by
      refine ⟨(forward_step e).1, (forward_step e).2.1, ?_⟩
      rw [← hcont]
    obtain ⟨t, c, hsp⟩ := hsplit
    constructor
    · simp [forward_data, forward_loop, hsp]
    · simp [forward_data, forward_loop, hsp]

/-- Witness for C7 at a concrete session: the client sends one chunk, the
target answers with one chunk, then the client closes. -/
theorem claim_C7_witness :
    ((forward_step (Ev.mk false false (some (RecvRes.data [1, 2] true))
        (some (RecvRes.data [3] true)))).2.2 = false ∧
      (forward_data [Ev.mk false false (some (RecvRes.data [1, 2] true))
          (some (RecvRes.data [3] true)),
        Ev.mk false false (some (RecvRes.data [] true)) none]).toTarget =
        (forward_step (Ev.mk false false (some (RecvRes.data [1, 2] true))
          (some (RecvRes.data [3] true)))).1.toList ++
        (forward_data [Ev.mk false false (some (RecvRes.data [] true)) none]).toTarget) ∧
    (forward_step (Ev.mk false false (some (RecvRes.data [] true)) none)).2.2 = true ∧
    forward_data [Ev.mk false false (some (RecvRes.data [] true)) none,
        Ev.mk true false none none] =
      forward_data [Ev.mk false false (some (RecvRes.data [] true)) none,
        Ev.mk false true none none] := by
  refine ⟨⟨by decide, ?_⟩, by decide, ?_⟩
  · exact (claim_C7.2.2.2.2 (Ev.mk false false (some (RecvRes.data [1, 2] true))
      (some (RecvRes.data [3] true)))
      [Ev.mk false false (some (RecvRes.data [] true)) none] (by decide)).1
  · exact claim_C7.2.2.2.1 (Ev.mk false false (some (RecvRes.data [] true)) none)
      [Ev.mk true false none none] [Ev.mk false true none none] (by decide)

/- ### colabconnect.py lines 1371-1425: add_to_hosts_file -/

/-- The hosts entries block built at lines 1390-1392: a comment header
followed by one `ip domain` line per resolved pair, in order. -/
def hosts_entries (resolved : List (String × String)) : String :=
  "\n# GitHub domains pre-resolved for VSCode tunnel testing\n" ++
    String.join (resolved.map (fun p => p.2 ++ " " ++ p.1 ++ "\n"))

/-- Source translation of `add_to_hosts_file` (lines 1371-1425), with the
file system modelled explicitly.  `prev` is the content of the hosts
file before the call; the result is the returned boolean paired with the
content after the call.  I/O oracles, one per fallible step of the
source: `tempOk` is the write of the temporary entries file (lines
1400-1402), `sudoOk` the `sudo bash -c "cat temp >> hosts"` run with
`check=True` (lines 1404-1409, appending on success, raising without
touching the hosts file on a non-zero exit), `openOk` the direct-mode
`open(path, "w")` (line 1416, which truncates the file on success and
leaves it untouched on failure), and `writeOk` the following `write`
(line 1417, which replaces the truncated content on success and leaves
the file truncated when it raises).  Every exception is caught at lines
1423-1425 and turned into a `False` return. -/
def add_to_hosts_file (resolved : List (String × String))
    (hosts_file_path : String) (use_sudo : Bool) (prev : String)
    (tempOk sudoOk openOk writeOk : Bool) : Bool × String :=
  if resolved.isEmpty then (false, prev)
  else
    let entries := hosts_entries resolved
    if use_sudo && "/etc".data.isPrefixOf hosts_file_path.data then
      if !tempOk then (false, prev)
      else if sudoOk then (true, prev ++ entries)
      else (false, prev)
    else
      if !openOk then (false, prev)
      else if writeOk then (true, entries)
      else (false, "")

/-- C8, as stated, fails on the code for the direct-write mode: the write
is not all-or-nothing, because `open(path, "w")` truncates the file
before the content is written, so a failure during `write` (for
example, a full disk) leaves the file empty rather than with its
previous content.  The refutation instantiates the claim at a direct
write whose `open` succeeds and whose `write` raises. -/
theorem claim_C8_cx :
    ¬ (∀ (resolved : List (String × String)) (path prev : String)
        (tempOk sudoOk openOk writeOk : Bool),
        (add_to_hosts_file resolved path false prev tempOk sudoOk openOk writeOk).1 =
          false →
        (add_to_hosts_file resolved path false prev tempOk sudoOk openOk writeOk).2 =
          prev) := by
  intro h
  have hres := h [("github.com", "1.2.3.4")] "./github_hosts_test" "20.1.1.1 old.example\n"
    true true true false (by decide)
  have hval : (add_to_hosts_file [("github.com", "1.2.3.4")] "./github_hosts_test"
      false "20.1.1.1 old.example\n" true true true false).2 = "" := by decide
  rw [hval] at hres
  exact absurd hres (by decide)

/-- C8 amended: in privileged (sudo) mode the claim holds — a failure of
the temporary-file write or of the privileged copy step leaves the
system hosts file unmodified, and success appends the entries; in
direct-write mode only a failure to open leaves the previous content,
while a failure during the write leaves the file truncated (previous
content lost), because the file is opened in truncating write mode
before the content is written. -/
theorem claim_C8 (resolved : List (String × String)) (path prev : String)
    (tempOk sudoOk openOk writeOk : Bool)
    (hne : resolved.isEmpty = false)
    (hetc : "/etc".data.isPrefixOf path.data = true) :
    ((tempOk = false ∨ sudoOk = false) →
      (add_to_hosts_file resolved path true prev tempOk sudoOk openOk writeOk).1 = false ∧
      (add_to_hosts_file resolved path true prev tempOk sudoOk openOk writeOk).2 = prev) ∧
    (tempOk = true → sudoOk = true →
      (add_to_hosts_file resolved path true prev tempOk sudoOk openOk writeOk).2 =
        prev ++ hosts_entries resolved) ∧
    (openOk = false →
      (add_to_hosts_file resolved path false prev tempOk sudoOk openOk writeOk).2 = prev) ∧
    (openOk = true → writeOk = false →
      (add_to_hosts_file resolved path false prev tempOk sudoOk openOk writeOk).1 = false ∧
      (add_to_hosts_file resolved path false prev tempOk sudoOk openOk writeOk).2 = "") ∧
    (openOk = true → writeOk = true →
      (add_to_hosts_file resolved path false prev tempOk sudoOk openOk writeOk).2 =
        hosts_entries resolved) := by
  refine ⟨?_, ?_, ?_, ?_, ?_⟩
  · intro hor
    cases hor with
    | inl ht =>
        subst ht
        constructor <;> simp [add_to_hosts_file, hne, hetc]
    | inr hs =>
        subst hs
        cases tempOk <;> constructor <;> simp [add_to_hosts_file, hne, hetc]
  · intro ht hs
    subst ht; subst hs
    simp [add_to_hosts_file, hne, hetc]
  · intro ho
    subst ho
    simp [add_to_hosts_file, hne]
  · intro ho hw
    subst ho; subst hw
    constructor <;> simp [add_to_hosts_file, hne]
  · intro ho hw
    subst ho; subst hw
    simp [add_to_hosts_file, hne]

/-- Witness for C8: a concrete resolved pair against the system hosts
path; the failed privileged copy leaves the file unchanged, and the
successful one appends. -/
theorem claim_C8_witness :
    (add_to_hosts_file [("github.com", "1.2.3.4")] "/etc/hosts" true
      "127.0.0.1 localhost\n" true false true true).2 = "127.0.0.1 localhost\n" ∧
    (add_to_hosts_file [("github.com", "1.2.3.4")] "/etc/hosts" true
      "127.0.0.1 localhost\n" true true true true).2 =
      "127.0.0.1 localhost\n" ++ hosts_entries [("github.com", "1.2.3.4")] :=
  ⟨((claim_C8 [("github.com", "1.2.3.4")] "/etc/hosts" "127.0.0.1 localhost\n"
      true false true true (by decide) (by decide)).1 (Or.inr rfl)).2,
   (claim_C8 [("github.com", "1.2.3.4")] "/etc/hosts" "127.0.0.1 localhost\n"
      true true true true (by decide) (by decide)).2.1 rfl rfl⟩
